import Mathlib

/-!
Shallow embedding of the emission-calculation core of the
Omdena-carbon-agent repository (files emission_factors.py and
data_handler.py), together with theorems settling the stated claims
about catalog calculation, ledger mutation, filtering and summaries.

Real numbers of the source are modelled as rationals; Python round(x, 4)
is modelled as rounding half to even at four decimal places.
-/

namespace CarbonAgent

/-- Rounding half to even to an integer, as Python round does. -/
def roundHalfEven (q : ℚ) : ℤ :=
  let n : ℤ := ⌊q⌋
  let r : ℚ := q - n
  if r < 1/2 then n
  else if 1/2 < r then n + 1
  else if n % 2 = 0 then n else n + 1

/-- Python round(x, 4): round half to even at four decimal places. -/
def round4 (q : ℚ) : ℚ := (roundHalfEven (q * 10000) : ℚ) / 10000

/-- One entry of the EMISSION_FACTORS table: a factor and a unit label. -/
structure EmissionFactorEntry where
  factor : ℚ
  unit : String
deriving DecidableEq, Repr

/-- The EMISSION_FACTORS table of emission_factors.py, as an association
list (category to association list of activity to entry), preserving the
insertion order of the source dictionaries. -/
def EMISSION_FACTORS : List (String × List (String × EmissionFactorEntry)) :=
  [ ("Stationary Combustion",
      [ ("Natural Gas", ⟨0.18316, "kWh"⟩)
      , ("Diesel", ⟨2.68787, "liter"⟩)
      , ("LPG", ⟨1.55537, "kg"⟩)
      , ("Coal", ⟨2.42287, "kg"⟩) ])
  , ("Mobile Combustion",
      [ ("Petrol/Gasoline", ⟨2.31495, "liter"⟩)
      , ("Diesel", ⟨2.70553, "liter"⟩)
      , ("LPG", ⟨1.55537, "liter"⟩)
      , ("CNG", ⟨2.53721, "kg"⟩) ])
  , ("Refrigerants",
      [ ("R-410A", ⟨2088.0, "kg"⟩)
      , ("R-134a", ⟨1430.0, "kg"⟩)
      , ("R-404A", ⟨3922.0, "kg"⟩)
      , ("R-407C", ⟨1774.0, "kg"⟩) ])
  , ("Electricity",
      [ ("India Grid", ⟨0.82, "kWh"⟩)
      , ("Indonesia Grid", ⟨0.87, "kWh"⟩)
      , ("Japan Grid", ⟨0.47, "kWh"⟩)
      , ("Solar Power", ⟨0.041, "kWh"⟩)
      , ("Wind Power", ⟨0.011, "kWh"⟩) ])
  , ("Steam", [ ("Purchased Steam", ⟨0.19, "kg"⟩) ])
  , ("District Cooling", [ ("District Cooling", ⟨0.12, "kWh"⟩) ])
  , ("Business Travel",
      [ ("Short-haul Flight", ⟨0.15298, "passenger-km"⟩)
      , ("Long-haul Flight", ⟨0.19085, "passenger-km"⟩)
      , ("Train", ⟨0.03694, "passenger-km"⟩)
      , ("Bus", ⟨0.10471, "passenger-km"⟩)
      , ("Taxi", ⟨0.14549, "km"⟩) ])
  , ("Employee Commuting",
      [ ("Car (Petrol/Gasoline)", ⟨0.17336, "km"⟩)
      , ("Car (Diesel)", ⟨0.16844, "km"⟩)
      , ("Motorcycle", ⟨0.11501, "km"⟩)
      , ("Bus", ⟨0.10471, "passenger-km"⟩)
      , ("Train/Metro", ⟨0.03694, "passenger-km"⟩) ])
  , ("Waste",
      [ ("Landfill", ⟨0.45727, "kg"⟩)
      , ("Recycling", ⟨0.01042, "kg"⟩)
      , ("Composting", ⟨0.01042, "kg"⟩)
      , ("Incineration", ⟨0.01613, "kg"⟩) ])
  , ("Water",
      [ ("Water Supply", ⟨0.344, "cubic meter"⟩)
      , ("Water Treatment", ⟨0.708, "cubic meter"⟩) ])
  , ("Purchased Goods & Services",
      [ ("Paper", ⟨0.919, "kg"⟩)
      , ("Plastic", ⟨3.14, "kg"⟩)
      , ("Glass", ⟨0.85, "kg"⟩)
      , ("Metal", ⟨1.37, "kg"⟩)
      , ("Food", ⟨3.59, "kg"⟩) ]) ]

/-- EMISSION_FACTORS.get(category, dict()).get(activity) of the source. -/
def get_emission_factor (category activity : String) : Option EmissionFactorEntry :=
  match EMISSION_FACTORS.lookup category with
  | some acts => acts.lookup activity
  | none => none

/-- calculate_emission of emission_factors.py: factor times amount rounded
to four decimals when the pair is in the catalog, a ValueError otherwise. -/
def calculate_emission (category activity : String) (amount : ℚ) : Except String ℚ :=
  match get_emission_factor category activity with
  | some ef => Except.ok (round4 (ef.factor * amount))
  | none => Except.error ("Invalid category/activity: " ++ category ++ " -> " ++ activity)

/-- total_emission_by_scope of emission_factors.py: fold calculate_emission
over the usage map, skipping pairs that raise, rounding the total to four
decimals. The scope argument is not used by the source body. -/
def total_emission_by_scope (scope : String)
    (usage : List (String × List (String × ℚ))) : ℚ :=
  round4 (usage.foldl (fun total p =>
    p.2.foldl (fun t q =>
      match calculate_emission p.1 q.1 q.2 with
      | Except.ok v => t + v
      | Except.error _ => t) total) 0)

/-- Specification-side reading of aggregateByScope, written from the
words of the claim: the sum of calculate over every pair of the usage map
that resolves, skipping pairs whose lookup fails, to be compared with the
fold of the source. -/
def resolvedSum (usage : List (String × List (String × ℚ))) : ℚ :=
  (usage.map (fun p =>
    (p.2.filterMap (fun q => (calculate_emission p.1 q.1 q.2).toOption)).sum)).sum

/-- Calendar date, modelling a pandas Timestamp at day precision. -/
structure Date where
  year : ℤ
  month : ℤ
  day : ℤ
deriving DecidableEq, Repr

/-- Chronological comparison of dates, as Timestamp comparison. -/
def dateLe (a b : Date) : Bool :=
  if a.year ≠ b.year then decide (a.year < b.year)
  else if a.month ≠ b.month then decide (a.month < b.month)
  else decide (a.day ≤ b.day)

/-- One row of the emissions_data frame of data_handler.py. The month
field models the derived month column that get_emissions_summary writes
into the frame (absent on freshly appended rows). -/
structure EmissionRecord where
  date : Date
  scope : String
  category : String
  activity : String
  quantity : ℚ
  unit : String
  emission_factor : ℚ
  emissions_kgCO2e : ℚ
  notes : String
  month : Option (ℤ × ℤ)
deriving DecidableEq, Repr

/-- DataHandler.add_emission_entry: the validation gate is the Python
truthiness test all of scope, category, activity, quantity and
emission_factor, where an empty string and the number zero are falsy; on
success the record is appended with emissions_kgCO2e equal to quantity
times emission_factor. Returns the success flag and the new ledger. -/
def add_emission_entry (st : List EmissionRecord) (date : Date)
    (scope category activity : String) (quantity : ℚ) (unit : String)
    (emission_factor : ℚ) (notes : String) : Bool × List EmissionRecord :=
  if scope = "" ∨ category = "" ∨ activity = "" ∨ quantity = 0 ∨ emission_factor = 0 then
    (false, st)
  else
    (true, st ++ [{ date := date, scope := scope, category := category,
                    activity := activity, quantity := quantity, unit := unit,
                    emission_factor := emission_factor,
                    emissions_kgCO2e := quantity * emission_factor,
                    notes := notes, month := none }])

/-- One parsed CSV row. A date of none models a cell that
pandas.to_datetime rejects. -/
structure CsvRow where
  date : Option Date
  scope : String
  category : String
  activity : String
  quantity : ℚ
  unit : String
  emission_factor : ℚ
  notes : String
deriving DecidableEq, Repr

/-- A parsed CSV file: its header columns and its rows. -/
structure CsvTable where
  columns : List String
  rows : List CsvRow
deriving DecidableEq, Repr

/-- The required column list of DataHandler.import_csv. -/
def requiredColumns : List String :=
  ["date", "scope", "category", "activity", "quantity", "unit", "emission_factor"]

/-- The record built from a CSV row by import_csv: emissions_kgCO2e is
recomputed as quantity times emission_factor, notes defaults to the empty
string when the notes column is absent. -/
def rowToRecord (hasNotes : Bool) (r : CsvRow) : EmissionRecord :=
  { date := r.date.getD ⟨0, 0, 0⟩, scope := r.scope, category := r.category,
    activity := r.activity, quantity := r.quantity, unit := r.unit,
    emission_factor := r.emission_factor,
    emissions_kgCO2e := r.quantity * r.emission_factor,
    notes := if hasNotes then r.notes else "", month := none }

/-- DataHandler.import_csv: reject the whole batch when a required column
is missing, naming the missing columns; fail without mutating when a date
cell does not parse; otherwise append every row with recomputed
emissions. Returns the (success, message) pair and the new ledger. The
date-parse failure message of the source is the text of a pandas
exception; it is modelled by a fixed string since no claim depends on it. -/
def import_csv (st : List EmissionRecord) (t : CsvTable) :
    (Bool × String) × List EmissionRecord :=
  let missing := requiredColumns.filter (fun c => ! t.columns.contains c)
  if missing ≠ [] then
    ((false, "Missing required columns: " ++ String.intercalate ", " missing), st)
  else if t.rows.any (fun r => r.date = none) then
    ((false, "unparseable date"), st)
  else
    ((true, "Successfully imported " ++ toString t.rows.length ++ " entries."),
     st ++ t.rows.map (rowToRecord (t.columns.contains "notes")))

/-- DataHandler.get_filtered_data: the date-range mask is applied only
when both bounds are given (the source tests start_date and end_date
together); a scope or category filter is applied when the argument is
present and not the empty string (Python truthiness). -/
def get_filtered_data (st : List EmissionRecord)
    (start_date end_date : Option Date) (scope category : Option String) :
    List EmissionRecord :=
  let d1 := match start_date, end_date with
    | some s, some e => st.filter (fun r => dateLe s r.date && dateLe r.date e)
    | _, _ => st
  let d2 := match scope with
    | some s => if s = "" then d1 else d1.filter (fun r => r.scope == s)
    | none => d1
  match category with
  | some c => if c = "" then d2 else d2.filter (fun r => r.category == c)
  | none => d2

/-- The %Y-%m month key written by get_emissions_summary. -/
def monthOf (d : Date) : ℤ × ℤ := (d.year, d.month)

/-- The month-column assignment of get_emissions_summary, applied to one
row of the frame. -/
def setMonth (r : EmissionRecord) : EmissionRecord :=
  { r with month := some (monthOf r.date) }

/-- Sum of emissions_kgCO2e over the rows whose key under f equals k
(one cell of a pandas groupby sum). -/
def groupSum {κ : Type} [DecidableEq κ] (f : EmissionRecord → κ)
    (recs : List EmissionRecord) (k : κ) : ℚ :=
  ((recs.filter (fun r => decide (f r = k))).map (fun r => r.emissions_kgCO2e)).sum

/-- The dictionary returned by get_emissions_summary. time_series is the
month-by-scope matrix produced by groupby, unstack and fillna zero, keyed
scope first as to_dict returns it. -/
structure Summary where
  total_emissions : ℚ
  scope_breakdown : List (String × ℚ)
  category_breakdown : List (String × ℚ)
  time_series : List (String × List ((ℤ × ℤ) × ℚ))
deriving DecidableEq, Repr

/-- DataHandler.get_emissions_summary. Besides returning the summary it
returns the ledger as left behind by the call: the source assigns a
derived month column to self.emissions_data, so on a non-empty ledger the
stored frame changes. Group keys are modelled in dedup order; pandas
sorts them, and no property proved here depends on the order of the
breakdown entries, only on their key set and values. -/
def get_emissions_summary (st : List EmissionRecord) : Summary × List EmissionRecord :=
  if st.isEmpty then
    ({ total_emissions := 0, scope_breakdown := [],
       category_breakdown := [], time_series := [] }, st)
  else
    let total := (st.map (fun r => r.emissions_kgCO2e)).sum
    let scopes := (st.map (fun r => r.scope)).dedup
    let cats := (st.map (fun r => r.category)).dedup
    let st2 := st.map setMonth
    let months := (st2.map (fun r => r.month.getD (0, 0))).dedup
    ({ total_emissions := total,
       scope_breakdown := scopes.map (fun s => (s, groupSum (fun r => r.scope) st s)),
       category_breakdown := cats.map (fun c => (c, groupSum (fun r => r.category) st c)),
       time_series := scopes.map (fun s => (s, months.map (fun m =>
         (m, ((st2.filter (fun r => decide (r.scope = s) && decide (r.month = some m))).map
           (fun r => r.emissions_kgCO2e)).sum)))) },
     st2)

/-! ## Helper lemmas -/

theorem foldl_try_add (c : String) (acts : List (String × ℚ)) (acc : ℚ) :
    acts.foldl (fun t q =>
      match calculate_emission c q.1 q.2 with
      | Except.ok v => t + v
      | Except.error _ => t) acc
      = acc + (acts.filterMap (fun q => (calculate_emission c q.1 q.2).toOption)).sum := by
  induction acts generalizing acc with
  | nil => simp
  | cons a tl ih =>
    cases h : calculate_emission c a.1 a.2 with
    | ok v => simp [h, ih, Except.toOption, add_assoc]
    | error e => simp [h, ih, Except.toOption]

theorem foldl_usage_add (usage : List (String × List (String × ℚ))) (acc : ℚ) :
    usage.foldl (fun total p =>
      p.2.foldl (fun t q =>
        match calculate_emission p.1 q.1 q.2 with
        | Except.ok v => t + v
        | Except.error _ => t) total) acc
      = acc + resolvedSum usage := by
  induction usage generalizing acc with
  | nil => simp [resolvedSum]
  | cons a tl ih =>
    rw [List.foldl_cons, foldl_try_add, ih]
    simp [resolvedSum, add_assoc]

/-! ## Claims -/

/-- C9: on an empty ledger, get_emissions_summary returns total zero and
empty scope, category and time-series breakdowns, not an error. -/
theorem C9_empty_summary :
    get_emissions_summary [] =
      ({ total_emissions := 0, scope_breakdown := [],
         category_breakdown := [], time_series := [] }, []) := rfl

/-- C10: total_emission_by_scope does not depend on its scope argument:
any two scope strings give the same total on the same usage map. -/
theorem C10_scope_argument_unused (s1 s2 : String)
    (usage : List (String × List (String × ℚ))) :
    total_emission_by_scope s1 usage = total_emission_by_scope s2 usage := rfl

/-- C5: calculate_emission returns factor times amount rounded to four
decimal places for a pair present in the catalog and an unknown-factor
error for an absent pair; on the initial catalog,
calculate_emission Electricity India-Grid 1500 is 1230. -/
theorem C5_calculate_spec (category activity : String) (amount : ℚ) :
    (∀ ef, get_emission_factor category activity = some ef →
      calculate_emission category activity amount = Except.ok (round4 (ef.factor * amount))) ∧
    (get_emission_factor category activity = none →
      calculate_emission category activity amount =
        Except.error ("Invalid category/activity: " ++ category ++ " -> " ++ activity)) ∧
    calculate_emission "Electricity" "India Grid" 1500 = Except.ok 1230 := by
  refine ⟨fun ef hef => ?_, fun hn => ?_, ?_⟩
  · simp [calculate_emission, hef]
  · simp [calculate_emission, hn]
  · show Except.ok (round4 ((0.82 : ℚ) * 1500)) = Except.ok 1230
    norm_num [round4, roundHalfEven]

/-- Witness for C5: both branches of the contract evaluated at concrete
inputs. -/
theorem C5_calculate_spec_witness :
    calculate_emission "Electricity" "India Grid" 1500
      = Except.ok (round4 ((0.82 : ℚ) * 1500)) ∧
    calculate_emission "Thermal" "Unknown Grid" 5
      = Except.error "Invalid category/activity: Thermal -> Unknown Grid" :=
  ⟨(C5_calculate_spec "Electricity" "India Grid" 1500).1 ⟨0.82, "kWh"⟩ rfl,
   (C5_calculate_spec "Thermal" "Unknown Grid" 5).2.1 rfl⟩

/-- C4: total_emission_by_scope equals the rounded sum of
calculate_emission over every pair of the usage map that resolves,
skipping pairs whose lookup fails; on the initial catalog the Scope 2
scenario with India Grid 1000 and Purchased Steam 300 totals 877. -/
theorem C4_aggregate_spec (scope : String)
    (usage : List (String × List (String × ℚ))) :
    total_emission_by_scope scope usage = round4 (resolvedSum usage) ∧
    total_emission_by_scope "Scope 2"
      [("Electricity", [("India Grid", 1000)]), ("Steam", [("Purchased Steam", 300)])]
      = 877 := by
  constructor
  · unfold total_emission_by_scope
    rw [foldl_usage_add]
    norm_num
  · show round4 ((0 + round4 ((0.82 : ℚ) * 1000)) + round4 ((0.19 : ℚ) * 300)) = 877
    norm_num [round4, roundHalfEven]

/-- C1 as stated is false: the validation gate of add_emission_entry is
Python truthiness, which accepts a negative quantity. With quantity minus
five the call succeeds and the ledger grows, where the claim requires a
validation error and an unchanged ledger. -/
theorem C1_counterexample :
    (add_emission_entry [] ⟨2024, 1, 15⟩ "Scope 1" "Mobile Combustion" "Diesel"
      (-5) "liter" 2.70553 "").1 = true ∧
    (add_emission_entry [] ⟨2024, 1, 15⟩ "Scope 1" "Mobile Combustion" "Diesel"
      (-5) "liter" 2.70553 "").2.length = 1 := by
  have hc : ¬ ("Scope 1" = "" ∨ "Mobile Combustion" = "" ∨ "Diesel" = ""
      ∨ (-5 : ℚ) = 0 ∨ (2.70553 : ℚ) = 0) := by
    push_neg
    exact ⟨by decide, by decide, by decide, by norm_num, by norm_num⟩
  constructor <;> (unfold add_emission_entry; rw [if_neg hc]) <;> rfl

/-- C1 amended: add_emission_entry fails exactly when one of scope,
category, activity is the empty string or quantity or emission_factor is
zero (Python falsiness), so a zero quantity is rejected and a negative
quantity is accepted; on failure the ledger is unchanged and on success
exactly one record is appended. -/
theorem C1_amended_validation (st : List EmissionRecord) (date : Date)
    (scope category activity : String) (quantity : ℚ) (unit : String)
    (emission_factor : ℚ) (notes : String) :
    ((add_emission_entry st date scope category activity quantity unit emission_factor notes).1 = false
      ↔ scope = "" ∨ category = "" ∨ activity = "" ∨ quantity = 0 ∨ emission_factor = 0) ∧
    ((add_emission_entry st date scope category activity quantity unit emission_factor notes).1 = false
      → (add_emission_entry st date scope category activity quantity unit emission_factor notes).2 = st) ∧
    ((add_emission_entry st date scope category activity quantity unit emission_factor notes).1 = true
      → (add_emission_entry st date scope category activity quantity unit emission_factor notes).2.length
          = st.length + 1) := by
  unfold add_emission_entry
  by_cases h : scope = "" ∨ category = "" ∨ activity = "" ∨ quantity = 0 ∨ emission_factor = 0
  · simp [h]
  · simp [h]

/-- Witness for C1 amended: a zero quantity is rejected and leaves the
ledger unchanged. -/
theorem C1_amended_validation_witness :
    (add_emission_entry [] ⟨2024, 1, 15⟩ "Scope 2" "Electricity" "India Grid"
      0 "kWh" 0.82 "").1 = false ∧
    (add_emission_entry [] ⟨2024, 1, 15⟩ "Scope 2" "Electricity" "India Grid"
      0 "kWh" 0.82 "").2 = [] := by
  have h := C1_amended_validation [] ⟨2024, 1, 15⟩ "Scope 2" "Electricity" "India Grid"
    0 "kWh" 0.82 ""
  have hf := h.1.mpr (Or.inr (Or.inr (Or.inr (Or.inl rfl))))
  exact ⟨hf, h.2.1 hf⟩

/-- C2: import_csv on a table lacking a required column rejects the whole
batch, returns a message naming exactly the missing required columns, and
leaves the ledger unchanged. -/
theorem C2_import_missing_columns (st : List EmissionRecord) (t : CsvTable)
    (h : ∃ c ∈ requiredColumns, c ∉ t.columns) :
    import_csv st t =
      ((false, "Missing required columns: " ++ String.intercalate ", "
          (requiredColumns.filter (fun c => ! t.columns.contains c))), st) := by
  obtain ⟨c, hc, hnc⟩ := h
  have hmem : c ∈ requiredColumns.filter (fun c => ! t.columns.contains c) := by
    simp [List.mem_filter, hc, hnc]
  have hne : requiredColumns.filter (fun c => ! t.columns.contains c) ≠ [] := by
    intro he
    rw [he] at hmem
    exact absurd hmem (List.not_mem_nil c)
  unfold import_csv
  rw [if_pos hne]

/-- Witness for C2: a table whose header has only date and scope is
rejected, naming the five other required columns, with the ledger
unchanged. -/
theorem C2_import_missing_columns_witness :
    import_csv [] ⟨["date", "scope"], []⟩ =
      ((false, "Missing required columns: " ++ String.intercalate ", "
          (requiredColumns.filter (fun c => ! (["date", "scope"] : List String).contains c))), []) :=
  C2_import_missing_columns [] ⟨["date", "scope"], []⟩
    ⟨"category", by simp [requiredColumns]⟩

/-- The derived-field invariant of the spec: stored emissions equal
quantity times emission factor. -/
def recordOK (r : EmissionRecord) : Prop :=
  r.emissions_kgCO2e = r.quantity * r.emission_factor

/-- C3: if every ledger record satisfies the derived-field invariant,
then after add_emission_entry and after import_csv every record of the
resulting ledger still satisfies it; in particular every appended record
carries emissions_kgCO2e equal to quantity times emission_factor. -/
theorem C3_emissions_invariant (st : List EmissionRecord)
    (h : ∀ r ∈ st, recordOK r) (date : Date)
    (scope category activity : String) (quantity : ℚ) (unit : String)
    (emission_factor : ℚ) (notes : String) (t : CsvTable) :
    (∀ r ∈ (add_emission_entry st date scope category activity quantity unit
        emission_factor notes).2, recordOK r) ∧
    (∀ r ∈ (import_csv st t).2, recordOK r) := by
  constructor
  · intro r hr
    unfold add_emission_entry at hr
    by_cases hc : scope = "" ∨ category = "" ∨ activity = "" ∨ quantity = 0 ∨ emission_factor = 0
    · simp [hc] at hr
      exact h r hr
    · simp [hc] at hr
      rcases hr with hr | hr
      · exact h r hr
      · rw [hr]
        rfl
  · intro r hr
    unfold import_csv at hr
    by_cases h1 : requiredColumns.filter (fun c => ! t.columns.contains c) ≠ []
    · rw [if_pos h1] at hr
      exact h r hr
    · rw [if_neg h1] at hr
      by_cases h2 : t.rows.any (fun r => r.date = none) = true
      · rw [if_pos h2] at hr
        exact h r hr
      · rw [if_neg h2] at hr
        simp only [List.mem_append, List.mem_map] at hr
        rcases hr with hr | ⟨row, _, hrow⟩
        · exact h r hr
        · rw [← hrow]
          rfl

/-- Witness for C3: starting from the empty ledger, the record appended
for one thousand kWh of India Grid electricity satisfies the invariant. -/
theorem C3_emissions_invariant_witness :
    recordOK { date := ⟨2024, 1, 15⟩, scope := "Scope 2", category := "Electricity",
               activity := "India Grid", quantity := 1000, unit := "kWh",
               emission_factor := 0.82, emissions_kgCO2e := 1000 * 0.82,
               notes := "", month := none } :=
  (C3_emissions_invariant [] (by simp) ⟨2024, 1, 15⟩ "Scope 2" "Electricity"
      "India Grid" 1000 "kWh" 0.82 "" ⟨[], []⟩).1 _ (by
    have hc : ¬ ("Scope 2" = "" ∨ "Electricity" = "" ∨ "India Grid" = ""
        ∨ (1000 : ℚ) = 0 ∨ (0.82 : ℚ) = 0) := by
      push_neg
      exact ⟨by decide, by decide, by decide, by norm_num, by norm_num⟩
    simp only [add_emission_entry, if_neg hc, List.nil_append, List.mem_singleton])

/-- A concrete ledger record used in counterexamples. -/
def sampleRecord : EmissionRecord :=
  { date := ⟨2023, 1, 1⟩, scope := "Scope 2", category := "Electricity",
    activity := "India Grid", quantity := 1000, unit := "kWh",
    emission_factor := 0.82, emissions_kgCO2e := 820, notes := "", month := none }

/-- C6 as stated is false: when only startDate is provided, the source
skips the date mask entirely (it requires start and end together), so a
record dated before the given startDate is still returned, where the
claim requires every provided filter to apply. -/
theorem C6_counterexample :
    get_filtered_data [sampleRecord] (some ⟨2024, 1, 1⟩) none none none = [sampleRecord] ∧
    dateLe ⟨2024, 1, 1⟩ sampleRecord.date = false :=
  ⟨rfl, by decide⟩

/-- The conjunction of the provided filters as the source applies them:
the inclusive date mask only when both bounds are provided, scope and
category when provided and not the empty string. -/
def combinedPred (start_date end_date : Option Date)
    (scope category : Option String) (r : EmissionRecord) : Bool :=
  (match start_date, end_date with
   | some s, some e => dateLe s r.date && dateLe r.date e
   | _, _ => true)
  && (match scope with
      | some s => (s == "") || (r.scope == s)
      | none => true)
  && (match category with
      | some c => (c == "") || (r.category == c)
      | none => true)

theorem strFilterEq (x : String) (f : EmissionRecord → String)
    (l : List EmissionRecord) :
    (if x = "" then l else l.filter (fun r => f r == x))
      = l.filter (fun r => (x == "") || (f r == x)) := by
  by_cases hx : x = ""
  · simp [hx, List.filter_true]
  · have hb : (x == "") = false := beq_eq_false_iff_ne.mpr hx
    simp [hx, hb]

theorem filter_comp3 {α : Type} (p q w v : α → Bool)
    (hv : ∀ a, v a = (p a && q a && w a)) (l : List α) :
    ((l.filter p).filter q).filter w = l.filter v := by
  induction l with
  | nil => rfl
  | cons a tl ih =>
    cases hp : p a <;> cases hq : q a <;> cases hw : w a <;>
      simp [-List.filter_filter, List.filter_cons, hp, hq, hw, hv, ih]

/-- C6 amended: get_filtered_data is the pure filter of the ledger by the
conjunction of the provided filters, except that the inclusive date
bounds apply only when startDate and endDate are both provided (a single
date bound is ignored); the result is a sublist of the ledger, so order
is preserved, the length does not grow, and the ledger itself is
untouched. -/
theorem C6_amended_filter (st : List EmissionRecord)
    (start_date end_date : Option Date) (scope category : Option String) :
    get_filtered_data st start_date end_date scope category
      = st.filter (combinedPred start_date end_date scope category) ∧
    (get_filtered_data st start_date end_date scope category).Sublist st := by
  have hstage : get_filtered_data st start_date end_date scope category
      = ((st.filter (fun r => match start_date, end_date with
            | some s, some e => dateLe s r.date && dateLe r.date e
            | _, _ => true)).filter (fun r => match scope with
            | some s => (s == "") || (r.scope == s)
            | none => true)).filter (fun r => match category with
            | some c => (c == "") || (r.category == c)
            | none => true) := by
    rcases start_date with _ | s1 <;> rcases end_date with _ | e1 <;>
      rcases scope with _ | s <;> rcases category with _ | c <;>
      simp only [get_filtered_data, strFilterEq, List.filter_true]
  have heq : get_filtered_data st start_date end_date scope category
      = st.filter (combinedPred start_date end_date scope category) := by
    rw [hstage]
    exact filter_comp3 _ _ _ _ (fun r => rfl) st
  exact ⟨heq, heq ▸ List.filter_sublist st⟩

theorem sum_map_filter_split {α : Type} (p : α → Bool) (g : α → ℚ) (l : List α) :
    ((l.filter p).map g).sum + ((l.filter (fun a => ! p a)).map g).sum = (l.map g).sum := by
  induction l with
  | nil => simp
  | cons a tl ih =>
    cases hp : p a <;>
      simp [-List.filter_filter, List.filter_cons, hp] <;> linarith [ih]

theorem sum_groupSum {κ : Type} [DecidableEq κ] (f : EmissionRecord → κ) :
    ∀ (keys : List κ) (recs : List EmissionRecord), keys.Nodup →
      (∀ r ∈ recs, f r ∈ keys) →
      (keys.map (fun k => groupSum f recs k)).sum
        = (recs.map (fun r => r.emissions_kgCO2e)).sum := by
  intro keys
  induction keys with
  | nil =>
    intro recs _ hcov
    rcases recs with _ | ⟨a, tl⟩
    · simp
    · exact absurd (hcov a (List.mem_cons_self a tl)) (List.not_mem_nil _)
  | cons k ks ih =>
    intro recs hnd hcov
    have hk : k ∉ ks := (List.nodup_cons.mp hnd).1
    have hnd2 : ks.Nodup := (List.nodup_cons.mp hnd).2
    have hcong : ∀ k2 ∈ ks, groupSum f recs k2
        = groupSum f (recs.filter (fun r => ! decide (f r = k))) k2 := by
      intro k2 hk2
      unfold groupSum
      rw [List.filter_filter]
      congr 1
      congr 1
      refine List.filter_congr (fun r _ => ?_)
      by_cases hr : f r = k2
      · have hne2 : ¬ k2 = k := fun he => hk (he ▸ hk2)
        simp [hr, hne2]
      · simp [hr]
    have hcov2 : ∀ r ∈ recs.filter (fun r => ! decide (f r = k)), f r ∈ ks := by
      intro r hr
      rw [List.mem_filter] at hr
      have h1 := hcov r hr.1
      have h2 : f r ≠ k := by
        have := hr.2
        simp at this
        exact this
      rcases List.mem_cons.mp h1 with h | h
      · exact absurd h h2
      · exact h
    have hrec := ih (recs.filter (fun r => ! decide (f r = k))) hnd2 hcov2
    have hmapc : ks.map (fun k2 => groupSum f recs k2)
        = ks.map (fun k2 => groupSum f (recs.filter (fun r => ! decide (f r = k))) k2) :=
      List.map_congr_left hcong
    calc ((k :: ks).map (fun k2 => groupSum f recs k2)).sum
        = groupSum f recs k + (ks.map (fun k2 => groupSum f recs k2)).sum := by simp
      _ = groupSum f recs k
            + ((recs.filter (fun r => ! decide (f r = k))).map (fun r => r.emissions_kgCO2e)).sum := by
          rw [hmapc, hrec]
      _ = (recs.map (fun r => r.emissions_kgCO2e)).sum := by
          rw [← sum_map_filter_split (fun r => decide (f r = k)) (fun r => r.emissions_kgCO2e) recs]
          rfl

/-- C7: on a non-empty ledger, the scope breakdown values and the
category breakdown values of get_emissions_summary each sum to the
total, the total is the sum of emissions_kgCO2e over all records, and
each breakdown has exactly one entry per distinct observed scope or
category value, none dropped. -/
theorem C7_breakdowns_sum_to_total (st : List EmissionRecord) (h : st ≠ []) :
    (((get_emissions_summary st).1.scope_breakdown.map Prod.snd).sum
        = (get_emissions_summary st).1.total_emissions) ∧
    (((get_emissions_summary st).1.category_breakdown.map Prod.snd).sum
        = (get_emissions_summary st).1.total_emissions) ∧
    ((get_emissions_summary st).1.total_emissions
        = (st.map (fun r => r.emissions_kgCO2e)).sum) ∧
    ((get_emissions_summary st).1.scope_breakdown.map Prod.fst).Nodup ∧
    (∀ s, s ∈ (get_emissions_summary st).1.scope_breakdown.map Prod.fst
        ↔ s ∈ st.map (fun r => r.scope)) ∧
    ((get_emissions_summary st).1.category_breakdown.map Prod.fst).Nodup ∧
    (∀ c, c ∈ (get_emissions_summary st).1.category_breakdown.map Prod.fst
        ↔ c ∈ st.map (fun r => r.category)) := by
  have hne : ¬ (st.isEmpty = true) := by
    cases st with
    | nil => exact absurd rfl h
    | cons a tl => simp
  have hsb : (get_emissions_summary st).1.scope_breakdown
      = (st.map (fun r => r.scope)).dedup.map
          (fun s => (s, groupSum (fun r => r.scope) st s)) := by
    unfold get_emissions_summary
    rw [if_neg hne]
  have hcb : (get_emissions_summary st).1.category_breakdown
      = (st.map (fun r => r.category)).dedup.map
          (fun c => (c, groupSum (fun r => r.category) st c)) := by
    unfold get_emissions_summary
    rw [if_neg hne]
  have htot : (get_emissions_summary st).1.total_emissions
      = (st.map (fun r => r.emissions_kgCO2e)).sum := by
    unfold get_emissions_summary
    rw [if_neg hne]
  have hsnd : ∀ (l : List String) (g : String → ℚ),
      (l.map (fun s => (s, g s))).map Prod.snd = l.map g := by
    intro l g
    simp
  have hfst : ∀ (l : List String) (g : String → ℚ),
      (l.map (fun s => (s, g s))).map Prod.fst = l := by
    intro l g
    rw [List.map_map, show (Prod.fst ∘ fun s : String => (s, g s)) = id from rfl]
    exact List.map_id l
  refine ⟨?_, ?_, htot, ?_, ?_, ?_, ?_⟩
  · rw [hsb, htot, hsnd]
    exact sum_groupSum (fun r => r.scope) _ st (List.nodup_dedup _)
      (fun r hr => List.mem_dedup.mpr (List.mem_map_of_mem _ hr))
  · rw [hcb, htot, hsnd]
    exact sum_groupSum (fun r => r.category) _ st (List.nodup_dedup _)
      (fun r hr => List.mem_dedup.mpr (List.mem_map_of_mem _ hr))
  · rw [hsb, hfst]
    exact List.nodup_dedup _
  · intro s
    rw [hsb, hfst]
    exact List.mem_dedup
  · rw [hcb, hfst]
    exact List.nodup_dedup _
  · intro c
    rw [hcb, hfst]
    exact List.mem_dedup

/-- Witness for C7: both breakdown sums equal the total on a concrete
one-record ledger. -/
theorem C7_breakdowns_witness :
    (((get_emissions_summary [sampleRecord]).1.scope_breakdown.map Prod.snd).sum
        = (get_emissions_summary [sampleRecord]).1.total_emissions) ∧
    (((get_emissions_summary [sampleRecord]).1.category_breakdown.map Prod.snd).sum
        = (get_emissions_summary [sampleRecord]).1.total_emissions) := by
  have h := C7_breakdowns_sum_to_total [sampleRecord] (List.cons_ne_nil _ _)
  exact ⟨h.1, h.2.1⟩

/-- C8 as stated is false: get_emissions_summary writes the derived month
column into the stored frame, so on a non-empty ledger the underlying
ledger state is modified by the call. -/
theorem C8_counterexample : (get_emissions_summary [sampleRecord]).2 ≠ [sampleRecord] := by
  intro h
  have h2 := congrArg (fun l => l.map (fun r => r.month)) h
  simp only [get_emissions_summary] at h2
  simp [setMonth, monthOf, sampleRecord] at h2

theorem map_setMonth_pres {α : Type} (g : EmissionRecord → α)
    (hg : ∀ r, g (setMonth r) = g r) (st : List EmissionRecord) :
    (st.map setMonth).map g = st.map g := by
  rw [List.map_map]
  exact List.map_congr_left (fun r _ => hg r)

theorem filter_setMonth (p : EmissionRecord → Bool)
    (hp : ∀ r, p (setMonth r) = p r) (st : List EmissionRecord) :
    (st.map setMonth).filter p = (st.filter p).map setMonth := by
  rw [List.filter_map]
  congr 1
  exact List.filter_congr (fun r _ => hp r)

theorem groupSum_setMonth {κ : Type} [DecidableEq κ] (f : EmissionRecord → κ)
    (hf : ∀ r, f (setMonth r) = f r) (st : List EmissionRecord) (k : κ) :
    groupSum f (st.map setMonth) k = groupSum f st k := by
  unfold groupSum
  rw [filter_setMonth _ (fun r => by simp [hf r]), List.map_map]
  congr 1

theorem map_setMonth_idem (st : List EmissionRecord) :
    (st.map setMonth).map setMonth = st.map setMonth := by
  rw [List.map_map]
  exact List.map_congr_left (fun r _ => rfl)

/-- Running get_emissions_summary on a ledger whose month column has
already been written produces the same summary as the first run, and
leaves the month column as written. -/
theorem summary_map_setMonth (st : List EmissionRecord) :
    get_emissions_summary (st.map setMonth)
      = ((get_emissions_summary st).1, st.map setMonth) := by
  by_cases hst : st = []
  · subst hst
    rfl
  · have hne : ¬ (st.isEmpty = true) := by
      cases st with
      | nil => exact absurd rfl hst
      | cons a tl => simp
    have hne2 : ¬ ((st.map setMonth).isEmpty = true) := by
      cases st with
      | nil => exact absurd rfl hst
      | cons a tl => simp
    unfold get_emissions_summary
    rw [if_neg hne, if_neg hne2]
    rw [Prod.mk.injEq]
    constructor
    · rw [Summary.mk.injEq]
      refine ⟨?_, ?_, ?_, ?_⟩
      · rw [map_setMonth_pres (fun r => r.emissions_kgCO2e) (fun r => rfl)]
      · rw [map_setMonth_pres (fun r => r.scope) (fun r => rfl)]
        exact List.map_congr_left (fun s _ => by
          rw [groupSum_setMonth (fun r => r.scope) (fun r => rfl)])
      · rw [map_setMonth_pres (fun r => r.category) (fun r => rfl)]
        exact List.map_congr_left (fun c _ => by
          rw [groupSum_setMonth (fun r => r.category) (fun r => rfl)])
      · rw [map_setMonth_pres (fun r => r.scope) (fun r => rfl),
          map_setMonth_idem]
    · exact map_setMonth_idem st

/-- C8 amended: get_emissions_summary is deterministic, and running it a
second time on the ledger the first call left behind returns the same
summary, but the first call does modify the stored ledger by writing the
derived month column; no field other than month is changed. -/
theorem C8_amended_summary (st : List EmissionRecord) :
    (get_emissions_summary ((get_emissions_summary st).2)).1
      = (get_emissions_summary st).1 ∧
    ((get_emissions_summary st).2).map (fun r => { r with month := none })
      = st.map (fun r => { r with month := none }) := by
  by_cases hst : st = []
  · subst hst
    exact ⟨rfl, rfl⟩
  · have hne : ¬ (st.isEmpty = true) := by
      cases st with
      | nil => exact absurd rfl hst
      | cons a tl => simp
    have h2 : (get_emissions_summary st).2 = st.map setMonth := by
      unfold get_emissions_summary
      rw [if_neg hne]
    constructor
    · rw [h2, summary_map_setMonth]
    · rw [h2, List.map_map]
      exact List.map_congr_left (fun r _ => rfl)

end CarbonAgent
